import Mathlib

/-!
Shallow embedding of the booking/payment core of the BE-Cinema backend.

The definitions below translate, entity for entity and branch for branch:
* `src/src/bookings/bookings.service.ts` (current MongoDB-lock version):
  `lockSeatsInDB`, `unlockSeatsInDB`, `create`, `confirmBooking`,
  `cancelBooking`, `autoCancelExpiredBookings`, `cleanupExpiredSeatLocks`;
* `src/unnamed/part_010` (`ShowtimesService`): `bookSeats`, `releaseSeats`;
* `src/unnamed/part_024` (`PaymentsService`): `createVNPayPayment`,
  `handleVNPayReturn`, `handleVNPayIPN`, `completeVNPayPayment`,
  `failVNPayPayment`, `refund`;
* `src/src/payments/services/vnpay.service.ts`: `verifyReturnUrl`,
  `getResponseMessage`.

MongoDB documents are modelled as association lists keyed by their string id;
each service method becomes a pure function from the database state to a
result together with the post-state (`Except Err α × DB`), since failed
operations may still have mutated state outside the aborted transaction.
Timestamps are naturals (Unix milliseconds).  The HMAC primitive of the
payment gateway is an external library function, so the callback handlers
take it as an explicit function argument.
-/

namespace Cinema

/-- One element of `Showtime.tempLockedSeats` (showtime.schema.ts). -/
structure SeatLock where
  seat : String
  userId : String
  expiresAt : Nat
  deriving Repr, DecidableEq

/-- The seat-state fields of a showtime document (showtime.schema.ts). -/
structure Showtime where
  price : Nat
  bookedSeats : List String
  tempLockedSeats : List SeatLock
  deriving Repr, DecidableEq

/-- Statuses of `BookingStatus` from booking.schema.ts. -/
inductive BookingStatus
  | pending
  | confirmed
  | cancelled
  deriving Repr, DecidableEq

/-- A booking document (booking.schema.ts); `createdAt` is the
`timestamps: true` creation time. -/
structure Booking where
  userId : String
  showtimeId : String
  seats : List String
  totalPrice : Nat
  status : BookingStatus
  createdAt : Nat
  bookingCode : String
  deriving Repr, DecidableEq

/-- Statuses of `PaymentStatus` from payment.schema.ts. -/
inductive PaymentStatus
  | pending
  | completed
  | failed
  | refunded
  deriving Repr, DecidableEq

/-- A payment document (payment.schema.ts). -/
structure Payment where
  bookingId : String
  amount : Nat
  method : String
  transactionId : String
  status : PaymentStatus
  paidAt : Option Nat
  deriving Repr, DecidableEq

/-- The persistent state: the three MongoDB collections the core mutates,
each an association list keyed by document id (insertion order preserved,
matching Mongo's natural order used by `findOne`). -/
structure DB where
  showtimes : List (String × Showtime)
  bookings : List (String × Booking)
  payments : List (String × Payment)
  deriving Repr, DecidableEq

/-- Error kinds thrown by the services (`NotFoundException`,
`BadRequestException`, `ConflictException`). -/
inductive Err
  | notFound (msg : String)
  | badRequest (msg : String)
  | conflict (msg : String)
  deriving Repr, DecidableEq

/-- Models `Model.findById`: first document with the given id. -/
def findById (l : List (String × α)) (i : String) : Option α :=
  (l.find? (fun p => p.1 == i)).map Prod.snd

/-- Models `updateOne({_id: i}, …)` / `doc.save()`: rewrite the document with id `i`
in place. -/
def updateById (l : List (String × α)) (i : String) (f : α → α) :
    List (String × α) :=
  l.map (fun p => if p.1 == i then (p.1, f p.2) else p)

/-- Models `$pull: { tempLockedSeats: { expiresAt: { $lt: now } } }` on one
showtime document. -/
def pullExpiredLocks (st : Showtime) (now : Nat) : Showtime :=
  { st with tempLockedSeats := st.tempLockedSeats.filter (fun l => !(l.expiresAt < now)) }

/-- Models `BookingsService.lockSeatsInDB` (bookings.service.ts:31-85): first remove
expired locks of the showtime, then atomically push locks for every seat if
none of them is booked or temp-locked; `success = modifiedCount > 0`. -/
def lockSeatsInDB (db : DB) (showtimeId : String) (seats : List String)
    (userId : String) (ttlMinutes : Nat) (now : Nat) : Bool × DB :=
  let expiresAt := now + ttlMinutes * 60 * 1000
  let db1 : DB :=
    { db with showtimes := updateById db.showtimes showtimeId (pullExpiredLocks · now) }
  let newLocks : List SeatLock :=
    seats.map (fun s => { seat := s, userId := userId, expiresAt := expiresAt })
  match findById db1.showtimes showtimeId with
  | none => (false, db1)
  | some st =>
    if seats.all (fun s =>
        !(st.bookedSeats.contains s) && !(st.tempLockedSeats.any (fun l => l.seat == s))) then
      (true,
        { db1 with showtimes := updateById db1.showtimes showtimeId (fun st =>
            { st with tempLockedSeats := st.tempLockedSeats ++ newLocks }) })
    else
      (false, db1)

/-- Models `BookingsService.unlockSeatsInDB` (bookings.service.ts:90-111):
`$pull: { tempLockedSeats: { seat: { $in: seats }, userId } }`. -/
def unlockSeatsInDB (db : DB) (showtimeId : String) (seats : List String)
    (userId : String) : DB :=
  { db with showtimes := updateById db.showtimes showtimeId (fun st =>
      { st with tempLockedSeats :=
          st.tempLockedSeats.filter (fun l => !(seats.contains l.seat && l.userId == userId)) }) }

/-- Models `BookingsService.create` (bookings.service.ts:142-230).  `newId` stands
for the ObjectId Mongo mints for the saved document and `bookingCode` for the
random code of `generateBookingCode`.  Both error exits abort the transaction
(the booking is not saved) and run `unlockSeatsInDB` from the catch block;
the expired-lock pull inside `lockSeatsInDB` is outside the transaction and
persists either way. -/
def create (db : DB) (userId : String) (showtimeId : String) (seats : List String)
    (now : Nat) (newId : String) (bookingCode : String) : Except Err String × DB :=
  let r := lockSeatsInDB db showtimeId seats userId 10 now
  let db1 := r.2
  if !r.1 then
    (.error (.conflict "One or more seats are currently being reserved by another user. Please try again."),
      unlockSeatsInDB db1 showtimeId seats userId)
  else
    match findById db1.showtimes showtimeId with
    | none =>
      (.error (.notFound ("Showtime with ID " ++ showtimeId ++ " not found")),
        unlockSeatsInDB db1 showtimeId seats userId)
    | some showtime =>
      let unavailableSeats := seats.filter (fun s => showtime.bookedSeats.contains s)
      if !unavailableSeats.isEmpty then
        (.error (.badRequest ("Seats " ++ String.intercalate ", " unavailableSeats ++ " are already booked")),
          unlockSeatsInDB db1 showtimeId seats userId)
      else
        let totalPrice := seats.length * showtime.price
        let booking : Booking :=
          { userId := userId, showtimeId := showtimeId, seats := seats,
            totalPrice := totalPrice, status := .pending, createdAt := now,
            bookingCode := bookingCode }
        (.ok newId, { db1 with bookings := db1.bookings ++ [(newId, booking)] })

/-- Models `ShowtimesService.bookSeats` (part_010:89-102): reject if any seat is
already booked, else append all of them to `bookedSeats`. -/
def bookSeats (db : DB) (showtimeId : String) (seats : List String) :
    Except Err Unit × DB :=
  match findById db.showtimes showtimeId with
  | none => (.error (.notFound ("Showtime with ID " ++ showtimeId ++ " not found")), db)
  | some st =>
    let alreadyBooked := seats.filter (fun s => st.bookedSeats.contains s)
    if !alreadyBooked.isEmpty then
      (.error (.badRequest ("Seats " ++ String.intercalate ", " alreadyBooked ++ " are already booked")), db)
    else
      (.ok (), { db with showtimes := updateById db.showtimes showtimeId (fun st =>
          { st with bookedSeats := st.bookedSeats ++ seats }) })

/-- Models `ShowtimesService.releaseSeats` (part_010:104-113): drop the listed seat
labels from `bookedSeats`, with no ownership check. -/
def releaseSeats (db : DB) (showtimeId : String) (seats : List String) :
    Except Err Unit × DB :=
  match findById db.showtimes showtimeId with
  | none => (.error (.notFound ("Showtime with ID " ++ showtimeId ++ " not found")), db)
  | some _ =>
    (.ok (), { db with showtimes := updateById db.showtimes showtimeId (fun st =>
        { st with bookedSeats := st.bookedSeats.filter (fun s => !(seats.contains s)) }) })

/-- Models `BookingsService.confirmBooking` (bookings.service.ts:310-414).  The QR /
email tail is external I/O whose failure is swallowed and changes no
persisted state, so it is not part of the state transition. -/
def confirmBooking (db : DB) (bookingId : String) : Except Err String × DB :=
  match findById db.bookings bookingId with
  | none => (.error (.notFound ("Booking with ID " ++ bookingId ++ " not found")), db)
  | some booking =>
    if booking.status == .confirmed then
      (.ok bookingId, db)
    else if !(booking.status == .pending) then
      (.error (.badRequest "Booking is not in pending status"), db)
    else
      match bookSeats db booking.showtimeId booking.seats with
      | (.error e, db1) => (.error e, db1)
      | (.ok _, db1) =>
        let db2 : DB :=
          { db1 with showtimes := updateById db1.showtimes booking.showtimeId (fun st =>
              { st with tempLockedSeats :=
                  st.tempLockedSeats.filter (fun l => !(booking.seats.contains l.seat)) }) }
        (.ok bookingId,
          { db2 with bookings := updateById db2.bookings bookingId (fun b =>
              { b with status := .confirmed }) })

/-- Models `BookingsService.cancelBooking` (bookings.service.ts:416-469): idempotent
on CANCELLED, rejects CONFIRMED; for PENDING it releases the booked seats and
the caller's temp locks, tolerating a missing showtime. -/
def cancelBooking (db : DB) (bookingId : String) : Except Err String × DB :=
  match findById db.bookings bookingId with
  | none => (.error (.notFound ("Booking with ID " ++ bookingId ++ " not found")), db)
  | some booking =>
    if booking.status == .cancelled then
      (.ok bookingId, db)
    else if booking.status == .confirmed then
      (.error (.badRequest "Cannot cancel confirmed booking via payment flow"), db)
    else
      match releaseSeats db booking.showtimeId booking.seats with
      | (.error (.notFound _), db1) =>
        (.ok bookingId,
          { db1 with bookings := updateById db1.bookings bookingId (fun b =>
              { b with status := .cancelled }) })
      | (.error e, db1) => (.error e, db1)
      | (.ok _, db1) =>
        let db2 := unlockSeatsInDB db1 booking.showtimeId booking.seats booking.userId
        (.ok bookingId,
          { db2 with bookings := updateById db2.bookings bookingId (fun b =>
              { b with status := .cancelled }) })

/-- The body of the per-booking loop of `autoCancelExpiredBookings`
(bookings.service.ts:665-687): save the booking as CANCELLED and pull its
seats from `bookedSeats` and its user's locks from `tempLockedSeats`. -/
def autoCancelStep (db : DB) (entry : String × Booking) : DB :=
  let booking := entry.2
  let db1 : DB :=
    { db with bookings := updateById db.bookings entry.1 (fun b =>
        { b with status := .cancelled }) }
  { db1 with showtimes := updateById db1.showtimes booking.showtimeId (fun st =>
      { st with
        bookedSeats := st.bookedSeats.filter (fun s => !(booking.seats.contains s)),
        tempLockedSeats :=
          st.tempLockedSeats.filter (fun l => !(l.userId == booking.userId && booking.seats.contains l.seat)) }) }

/-- Models `BookingsService.autoCancelExpiredBookings` (bookings.service.ts:649-693):
snapshot the PENDING bookings older than 15 minutes, then process each. -/
def autoCancelExpiredBookings (db : DB) (now : Nat) : DB :=
  let expirationTime := now - 15 * 60 * 1000
  let expiredBookings := db.bookings.filter
    (fun p => p.2.status == .pending && p.2.createdAt < expirationTime)
  expiredBookings.foldl autoCancelStep db

/-- Models `BookingsService.cleanupExpiredSeatLocks` (bookings.service.ts:699-721):
`updateMany({}, { $pull: { tempLockedSeats: { expiresAt: { $lt: now } } } })`. -/
def cleanupExpiredSeatLocks (db : DB) (now : Nat) : DB :=
  { db with showtimes := db.showtimes.map (fun p => (p.1, pullExpiredLocks p.2 now)) }

/-- The VNPay callback parameters the handlers read (vnpay-payment.dto.ts);
`otherParams` stands, already URL-form-encoded, for the remaining signed
fields (`vnp_TmnCode`, `vnp_BankCode`, `vnp_PayDate`, …) that the handlers
never branch on. -/
structure VNPayParams where
  vnp_TxnRef : String
  vnp_ResponseCode : String
  vnp_TransactionStatus : Option String
  vnp_TransactionNo : Option String
  vnp_Amount : String
  vnp_SecureHash : String
  otherParams : String
  deriving Repr, DecidableEq

/-- The canonical signed string of `verifyReturnUrl`
(vnpay.service.ts:83-92): every parameter except `vnp_SecureHash`,
URL-form-encoded in alphabetical key order. -/
def signData (p : VNPayParams) : String :=
  "vnp_Amount=" ++ p.vnp_Amount
    ++ (match p.vnp_TransactionNo with
        | some v => "&vnp_TransactionNo=" ++ v
        | none => "")
    ++ "&vnp_ResponseCode=" ++ p.vnp_ResponseCode
    ++ (match p.vnp_TransactionStatus with
        | some v => "&vnp_TransactionStatus=" ++ v
        | none => "")
    ++ "&vnp_TxnRef=" ++ p.vnp_TxnRef
    ++ "&" ++ p.otherParams

/-- Models `VNPayService.getResponseMessage` (vnpay.service.ts:256-274). -/
def getResponseMessage (code : String) : String :=
  match code with
  | "00" => "Giao dịch thành công"
  | "07" => "Trừ tiền thành công. Giao dịch bị nghi ngờ (liên quan tới lừa đảo, giao dịch bất thường)."
  | "09" => "Giao dịch không thành công do: Thẻ/Tài khoản của khách hàng chưa đăng ký dịch vụ InternetBanking tại ngân hàng."
  | "10" => "Giao dịch không thành công do: Khách hàng xác thực thông tin thẻ/tài khoản không đúng quá 3 lần"
  | "11" => "Giao dịch không thành công do: Đã hết hạn chờ thanh toán. Xin quý khách vui lòng thực hiện lại giao dịch."
  | "12" => "Giao dịch không thành công do: Thẻ/Tài khoản của khách hàng bị khóa."
  | "13" => "Giao dịch không thành công do Quý khách nhập sai mật khẩu xác thực giao dịch (OTP). Xin quý khách vui lòng thực hiện lại giao dịch."
  | "24" => "Giao dịch không thành công do: Khách hàng hủy giao dịch"
  | "51" => "Giao dịch không thành công do: Tài khoản của quý khách không đủ số dư để thực hiện giao dịch."
  | "65" => "Giao dịch không thành công do: Tài khoản của Quý khách đã vượt quá hạn mức giao dịch trong ngày."
  | "75" => "Ngân hàng thanh toán đang bảo trì."
  | "79" => "Giao dịch không thành công do: KH nhập sai mật khẩu thanh toán quá số lần quy định. Xin quý khách vui lòng thực hiện lại giao dịch"
  | "99" => "Các lỗi khác (lỗi còn lại, không có trong danh sách mã lỗi đã liệt kê)"
  | _ => "Lỗi không xác định"

/-- The value returned by `verifyReturnUrl` (vnpay.service.ts:78-135).  In the
source, `data` is an object present in both valid branches (success data or
`{orderId, responseCode, transactionStatus}`), hence truthy whenever
`isValid`; `hasData` records that truthiness and `dataTransactionNo` the
`data.transactionNo` field (absent in the failure-shaped data). -/
structure VerifyOut where
  isValid : Bool
  message : String
  hasData : Bool
  dataTransactionNo : Option String
  deriving Repr, DecidableEq

/-- Models `VNPayService.verifyReturnUrl` (vnpay.service.ts:78-135).  `hmac` is the
HMAC-SHA512 library primitive, passed in because it is external code; the
success branch additionally requires `vnp_TransactionStatus` to be absent,
empty (falsy in JS) or `"00"`. -/
def verifyReturnUrl (hmac : String → String → String) (secret : String)
    (p : VNPayParams) : VerifyOut :=
  let signed := hmac secret (signData p)
  if !(p.vnp_SecureHash == signed) then
    { isValid := false, message := "Invalid signature", hasData := false,
      dataTransactionNo := none }
  else if p.vnp_ResponseCode == "00" &&
      (match p.vnp_TransactionStatus with
       | none => true
       | some s => s == "" || s == "00") then
    { isValid := true, message := "Payment successful", hasData := true,
      dataTransactionNo := p.vnp_TransactionNo }
  else
    { isValid := true, message := getResponseMessage p.vnp_ResponseCode, hasData := true,
      dataTransactionNo := none }

/-- The characters before the first `'-'` (all of them when there is none). -/
def takeUntilDash : List Char → List Char
  | [] => []
  | c :: cs => if c = '-' then [] else c :: takeUntilDash cs

/-- Models `orderId.split('-')[0]` (part_024:216-217, 256-257): the part of the
order reference before the first dash. -/
def extractBookingId (orderId : String) : String :=
  ⟨takeUntilDash orderId.data⟩

/-- Models `PaymentsService.completeVNPayPayment` (part_024:295-313): complete the
first PENDING payment of the booking (keeping the old transaction id when
`vnpData.transactionNo` is falsy) and then confirm the booking; a no-op when
no PENDING payment exists. -/
def completeVNPayPayment (db : DB) (bookingId : String)
    (dataTransactionNo : Option String) (now : Nat) : Except Err Unit × DB :=
  match db.payments.find? (fun p => p.2.bookingId == bookingId && p.2.status == .pending) with
  | none => (.ok (), db)
  | some (pid, payment) =>
    let newTransactionId :=
      match dataTransactionNo with
      | some t => if t == "" then payment.transactionId else t
      | none => payment.transactionId
    let db1 : DB :=
      { db with payments := updateById db.payments pid (fun p =>
          { p with status := .completed, paidAt := some now, transactionId := newTransactionId }) }
    let r := confirmBooking db1 bookingId
    (r.1.map (fun _ => ()), r.2)

/-- Models `PaymentsService.failVNPayPayment` (part_024:318-332): mark the first
PENDING payment of the booking FAILED; nothing else — in particular the
booking is never cancelled here. -/
def failVNPayPayment (db : DB) (bookingId : String) : DB :=
  match db.payments.find? (fun p => p.2.bookingId == bookingId && p.2.status == .pending) with
  | none => db
  | some (pid, _) =>
    { db with payments := updateById db.payments pid (fun p => { p with status := .failed }) }

/-- The `{success, message}` object the callback handlers return. -/
structure CallbackOut where
  success : Bool
  message : String
  deriving Repr, DecidableEq

/-- Models `PaymentsService.handleVNPayIPN` (part_024:245-290): verify the
signature, dedupe on an already-COMPLETED payment, then apply success or
failure.  An exception from `confirmBooking` propagates (`.error`). -/
def handleVNPayIPN (hmac : String → String → String) (secret : String)
    (db : DB) (p : VNPayParams) (now : Nat) : Except Err CallbackOut × DB :=
  let verifyResult := verifyReturnUrl hmac secret p
  if !verifyResult.isValid then
    (.ok { success := false, message := "Invalid signature" }, db)
  else
    let bookingId := extractBookingId p.vnp_TxnRef
    match db.payments.find? (fun q => q.2.bookingId == bookingId && q.2.status == .completed) with
    | some _ => (.ok { success := true, message := "Payment already confirmed" }, db)
    | none =>
      if verifyResult.hasData && p.vnp_ResponseCode == "00" then
        let r := completeVNPayPayment db bookingId verifyResult.dataTransactionNo now
        (r.1.map (fun _ => { success := true, message := "Payment confirmed" }), r.2)
      else
        (.ok { success := false, message := verifyResult.message }, failVNPayPayment db bookingId)

/-- Models `PaymentsService.handleVNPayReturn` (part_024:205-239): like the IPN but
without the already-completed dedupe step and with the return-page message. -/
def handleVNPayReturn (hmac : String → String → String) (secret : String)
    (db : DB) (p : VNPayParams) (now : Nat) : Except Err CallbackOut × DB :=
  let verifyResult := verifyReturnUrl hmac secret p
  if !verifyResult.isValid then
    (.ok { success := false, message := "Invalid payment signature" }, db)
  else
    let bookingId := extractBookingId p.vnp_TxnRef
    if verifyResult.hasData && p.vnp_ResponseCode == "00" then
      let r := completeVNPayPayment db bookingId verifyResult.dataTransactionNo now
      (r.1.map (fun _ => { success := true, message := "Payment successful" }), r.2)
    else
      (.ok { success := false, message := verifyResult.message }, failVNPayPayment db bookingId)

/-- Models `PaymentsService.refund` (part_024:119-137): only COMPLETED payments may
be refunded; the payment is saved as REFUNDED before `cancelBooking` runs,
so an exception from `cancelBooking` leaves the payment REFUNDED. -/
def refund (db : DB) (paymentId : String) : Except Err String × DB :=
  match findById db.payments paymentId with
  | none => (.error (.notFound ("Payment with ID " ++ paymentId ++ " not found")), db)
  | some payment =>
    if !(payment.status == .completed) then
      (.error (.badRequest "Only completed payments can be refunded"), db)
    else
      let db1 : DB :=
        { db with payments := updateById db.payments paymentId (fun p =>
            { p with status := .refunded }) }
      let r := cancelBooking db1 payment.bookingId
      (r.1.map (fun _ => paymentId), r.2)

/-- Models `PaymentsService.createVNPayPayment` (part_024:150-200): requires a
PENDING booking and no COMPLETED payment; an existing PENDING payment is NOT
superseded — a second PENDING payment row is simply appended.  `newPaymentId`
and `transactionId` stand for the minted ObjectId and
`generateTransactionId()`. -/
def createVNPayPayment (db : DB) (bookingId : String) (amount : Nat)
    (newPaymentId : String) (transactionId : String) : Except Err String × DB :=
  match findById db.bookings bookingId with
  | none => (.error (.notFound ("Booking with ID " ++ bookingId ++ " not found")), db)
  | some booking =>
    if !(booking.status == .pending) then
      (.error (.badRequest "Booking is not in pending status"), db)
    else
      let existingPayment := db.payments.find? (fun p =>
        p.2.bookingId == bookingId && (p.2.status == .pending || p.2.status == .completed))
      match existingPayment with
      | some (_, ex) =>
        if ex.status == .completed then
          (.error (.badRequest "Payment already completed for this booking"), db)
        else
          (.ok newPaymentId,
            { db with payments := db.payments ++
                [(newPaymentId, { bookingId := bookingId, amount := amount, method := "vnpay",
                                  transactionId := transactionId, status := .pending, paidAt := none })] })
      | none =>
        (.ok newPaymentId,
          { db with payments := db.payments ++
              [(newPaymentId, { bookingId := bookingId, amount := amount, method := "vnpay",
                                transactionId := transactionId, status := .pending, paidAt := none })] })

/-- Modelled from the spec: the repository snapshot has no showtime-update
endpoint under src/ (showtime CRUD is an out-of-scope collaborator), but spec
scenario 6 has an admin updating a showtime's price.  Modelled as replacing
the `price` field of the showtime document. -/
def updateShowtimePrice (db : DB) (showtimeId : String) (newPrice : Nat) : DB :=
  { db with showtimes := updateById db.showtimes showtimeId (fun st =>
      { st with price := newPrice }) }

/-- k-fold application of `handleVNPayIPN` with a fixed payload (the state
after k deliveries of the same notification). -/
def iterateIPN (hmac : String → String → String) (secret : String)
    (p : VNPayParams) (now : Nat) : Nat → DB → DB
  | 0, db => db
  | k + 1, db => iterateIPN hmac secret p now k (handleVNPayIPN hmac secret db p now).2

/-- There is a temp lock on `seat` held by `userId` in showtime
`showtimeId`. -/
def hasLock (db : DB) (showtimeId : String) (seat : String) (userId : String) : Bool :=
  match findById db.showtimes showtimeId with
  | none => false
  | some st => st.tempLockedSeats.any (fun l => l.seat == seat && l.userId == userId)

/-- No seat of `seats` carries a temp lock held by `userId`. -/
def noCallerHolds (db : DB) (showtimeId : String) (seats : List String)
    (userId : String) : Bool :=
  seats.all (fun s => !(hasLock db showtimeId s userId))

/-- Number of PENDING payment rows of a booking. -/
def pendingPaymentsFor (db : DB) (bookingId : String) : Nat :=
  (db.payments.filter (fun p => p.2.bookingId == bookingId && p.2.status == .pending)).length

theorem findById_cons (k : String) (v : α) (l : List (String × α)) (i : String) :
    findById ((k, v) :: l) i = if k == i then some v else findById l i := by
  by_cases h : k = i
  · simp [findById, List.find?_cons, h]
  · simp [findById, List.find?_cons, beq_false_of_ne h]

theorem updateById_cons (k : String) (v : α) (l : List (String × α)) (i : String)
    (f : α → α) :
    updateById ((k, v) :: l) i f =
      (if k == i then (k, f v) else (k, v)) :: updateById l i f := by
  by_cases h : k = i <;> simp [updateById, h]

theorem findById_updateById_self (l : List (String × α)) (i : String) (f : α → α) :
    findById (updateById l i f) i = (findById l i).map f := by
  induction l with
  | nil => rfl
  | cons hd tl ih =>
    obtain ⟨k, v⟩ := hd
    rw [updateById_cons]
    by_cases h : k = i
    · subst h
      simp [findById_cons]
    · simp [beq_false_of_ne h, findById_cons, ih]

theorem findById_updateById_ne (l : List (String × α)) (i j : String) (f : α → α)
    (h : j ≠ i) : findById (updateById l i f) j = findById l j := by
  induction l with
  | nil => rfl
  | cons hd tl ih =>
    obtain ⟨k, v⟩ := hd
    rw [updateById_cons]
    by_cases hk : k = i
    · subst hk
      have hkj : (k == j) = false := beq_false_of_ne (fun e => h (e ▸ rfl))
      simp [findById_cons, hkj, ih]
    · simp [beq_false_of_ne hk, findById_cons, ih]

theorem findById_append_right (l : List (String × α)) (i : String) (v : α)
    (h : findById l i = none) :
    findById (l ++ [(i, v)]) i = some v := by
  induction l with
  | nil => simp [findById_cons, findById]
  | cons hd tl ih =>
    obtain ⟨k, w⟩ := hd
    rw [findById_cons] at h
    rw [List.cons_append, findById_cons]
    by_cases hk : k = i
    · simp [hk] at h
    · simp only [beq_false_of_ne hk, if_false] at h ⊢
      exact ih h

theorem findById_eq_some_of_mem (l : List (String × α)) (i : String) (v : α)
    (hmem : (i, v) ∈ l) (hnd : (l.map Prod.fst).Nodup) : findById l i = some v := by
  induction l with
  | nil => cases hmem
  | cons hd tl ih =>
    obtain ⟨k, w⟩ := hd
    rw [findById_cons]
    rcases List.mem_cons.mp hmem with hm | hm
    · obtain ⟨rfl, rfl⟩ := Prod.mk.injEq .. ▸ hm
      simp
    · have hne : k ≠ i := by
        intro he
        have hk : k ∈ tl.map Prod.fst := by
          have := List.mem_map_of_mem Prod.fst hm
          simpa [he] using this
        exact (List.nodup_cons.mp (by simpa using hnd)).1 hk
      simp only [beq_false_of_ne hne, if_false]
      exact ih hm (List.nodup_cons.mp (by simpa using hnd)).2

theorem releaseSeats_of_found (db : DB) (sid : String) (seats : List String)
    (st : Showtime) (h : findById db.showtimes sid = some st) :
    releaseSeats db sid seats =
      (.ok (), { db with showtimes := updateById db.showtimes sid (fun st =>
          { st with bookedSeats := st.bookedSeats.filter (fun s => !(seats.contains s)) }) }) := by
  unfold releaseSeats
  rw [h]

theorem cancelBooking_pending (db : DB) (bid : String) (b : Booking) (st : Showtime)
    (hb : findById db.bookings bid = some b) (hp : b.status = .pending)
    (hst : findById db.showtimes b.showtimeId = some st) :
    cancelBooking db bid =
      (.ok bid,
        { showtimes := updateById
            (updateById db.showtimes b.showtimeId (fun s =>
              { s with bookedSeats := s.bookedSeats.filter (fun x => !(b.seats.contains x)) }))
            b.showtimeId
            (fun s => { s with tempLockedSeats :=
              s.tempLockedSeats.filter (fun l => !(b.seats.contains l.seat && l.userId == b.userId)) }),
          bookings := updateById db.bookings bid (fun x => { x with status := .cancelled }),
          payments := db.payments }) := by
  unfold cancelBooking
  rw [hb]
  simp only [hp, releaseSeats_of_found db b.showtimeId b.seats st hst]
  rfl

theorem bookSeats_bookings (db : DB) (sid : String) (seats : List String) :
    (bookSeats db sid seats).2.bookings = db.bookings := by
  unfold bookSeats
  cases h : findById db.showtimes sid with
  | none => rfl
  | some st =>
    dsimp only
    split <;> rfl

theorem bookSeats_payments (db : DB) (sid : String) (seats : List String) :
    (bookSeats db sid seats).2.payments = db.payments := by
  unfold bookSeats
  cases h : findById db.showtimes sid with
  | none => rfl
  | some st =>
    dsimp only
    split <;> rfl

theorem releaseSeats_bookings (db : DB) (sid : String) (seats : List String) :
    (releaseSeats db sid seats).2.bookings = db.bookings := by
  unfold releaseSeats
  cases h : findById db.showtimes sid <;> rfl

theorem confirmBooking_confirmed (db : DB) (bid : String) (b : Booking)
    (hb : findById db.bookings bid = some b) (hc : b.status = .confirmed) :
    confirmBooking db bid = (.ok bid, db) := by
  unfold confirmBooking
  rw [hb]
  simp [hc]

theorem cancelBooking_cancelled (db : DB) (bid : String) (b : Booking)
    (hb : findById db.bookings bid = some b) (hc : b.status = .cancelled) :
    cancelBooking db bid = (.ok bid, db) := by
  unfold cancelBooking
  rw [hb]
  simp [hc]

theorem confirmBooking_ok_status (db : DB) (bid r : String) (db' : DB)
    (h : confirmBooking db bid = (.ok r, db')) :
    r = bid ∧ ∃ b', findById db'.bookings bid = some b' ∧ b'.status = .confirmed := by
  unfold confirmBooking at h
  cases hb : findById db.bookings bid with
  | none => rw [hb] at h; simp at h
  | some b =>
    rw [hb] at h
    dsimp only at h
    by_cases hc : b.status = .confirmed
    · simp only [hc] at h
      simp only [show (BookingStatus.confirmed == BookingStatus.confirmed) = true from rfl,
        if_true, Prod.mk.injEq, Except.ok.injEq] at h
      obtain ⟨rfl, rfl⟩ := h
      exact ⟨rfl, b, hb, hc⟩
    · have hcb : (b.status == BookingStatus.confirmed) = false := beq_false_of_ne hc
      rw [hcb] at h
      by_cases hp : b.status = .pending
      · have hpb : (b.status == BookingStatus.pending) = true := beq_iff_eq.mpr hp
        rw [hpb] at h
        simp only [Bool.false_eq_true, if_false, Bool.not_true, Bool.true_eq_false,
          if_true] at h
        cases hbs : bookSeats db b.showtimeId b.seats with
        | mk res db1 =>
          rw [hbs] at h
          cases res with
          | error e => simp at h
          | ok u =>
            simp only [Prod.mk.injEq, Except.ok.injEq] at h
            obtain ⟨rfl, rfl⟩ := h
            refine ⟨rfl, { b with status := .confirmed }, ?_, rfl⟩
            have hdb1 : db1.bookings = db.bookings := by
              have hh := bookSeats_bookings db b.showtimeId b.seats
              rw [hbs] at hh
              exact hh
            dsimp only
            rw [findById_updateById_self, hdb1, hb]
            rfl
      · have hpb : (b.status == BookingStatus.pending) = false := beq_false_of_ne hp
        rw [hpb] at h
        simp at h

theorem cancelBooking_ok_status (db : DB) (bid r : String) (db' : DB)
    (h : cancelBooking db bid = (.ok r, db')) :
    r = bid ∧ ∃ b', findById db'.bookings bid = some b' ∧ b'.status = .cancelled := by
  unfold cancelBooking at h
  cases hb : findById db.bookings bid with
  | none => rw [hb] at h; simp at h
  | some b =>
    rw [hb] at h
    dsimp only at h
    by_cases hc : b.status = .cancelled
    · simp only [hc] at h
      simp only [show (BookingStatus.cancelled == BookingStatus.cancelled) = true from rfl,
        if_true, Prod.mk.injEq, Except.ok.injEq] at h
      obtain ⟨rfl, rfl⟩ := h
      exact ⟨rfl, b, hb, hc⟩
    · have hcb : (b.status == BookingStatus.cancelled) = false := beq_false_of_ne hc
      rw [hcb] at h
      by_cases hf : b.status = .confirmed
      · have hfb : (b.status == BookingStatus.confirmed) = true := beq_iff_eq.mpr hf
        rw [hfb] at h
        simp at h
      · have hfb : (b.status == BookingStatus.confirmed) = false := beq_false_of_ne hf
        rw [hfb] at h
        simp only [Bool.false_eq_true, if_false] at h
        cases hrs : releaseSeats db b.showtimeId b.seats with
        | mk res db1 =>
          rw [hrs] at h
          have hdb1 : db1.bookings = db.bookings := by
            have := releaseSeats_bookings db b.showtimeId b.seats
            rw [hrs] at this
            exact this
          cases res with
          | error e =>
            cases e with
            | notFound m =>
              simp only [Prod.mk.injEq, Except.ok.injEq] at h
              obtain ⟨rfl, rfl⟩ := h
              refine ⟨rfl, { b with status := .cancelled }, ?_, rfl⟩
              dsimp only
              rw [findById_updateById_self, hdb1, hb]
              rfl
            | badRequest m => simp at h
            | conflict m => simp at h
          | ok u =>
            simp only [Prod.mk.injEq, Except.ok.injEq] at h
            obtain ⟨rfl, rfl⟩ := h
            refine ⟨rfl, { b with status := .cancelled }, ?_, rfl⟩
            dsimp only [unlockSeatsInDB]
            rw [findById_updateById_self, hdb1, hb]
            rfl

/-- C10: `releaseSeats(showtimeId, seats)` removes exactly the listed seat
labels from the showtime's `bookedSeats` and changes nothing else (the temp
locks, the other showtimes and the other collections are untouched), keyed by
seat label alone with no check of which booking owns the seat; consequently
`cancelBooking` of a PENDING booking filters that booking's seat labels out
of `bookedSeats` unconditionally — also when a different (e.g. CONFIRMED)
booking put them there. -/
theorem c10_releaseSeats_label_keyed (db : DB) (sid : String) (seats : List String) :
    (∀ st, findById db.showtimes sid = some st →
      ∃ db', releaseSeats db sid seats = (.ok (), db') ∧
        findById db'.showtimes sid =
          some { st with bookedSeats := st.bookedSeats.filter (fun s => !(seats.contains s)) } ∧
        (∀ j, j ≠ sid → findById db'.showtimes j = findById db.showtimes j) ∧
        db'.bookings = db.bookings ∧ db'.payments = db.payments) ∧
    (∀ bid b st, findById db.bookings bid = some b → b.status = .pending →
      findById db.showtimes b.showtimeId = some st →
      ∃ db', cancelBooking db bid = (.ok bid, db') ∧
        findById db'.showtimes b.showtimeId =
          some { st with
            bookedSeats := st.bookedSeats.filter (fun x => !(b.seats.contains x)),
            tempLockedSeats :=
              st.tempLockedSeats.filter (fun l => !(b.seats.contains l.seat && l.userId == b.userId)) }) := by
  constructor
  · intro st hst
    refine ⟨_, releaseSeats_of_found db sid seats st hst, ?_, ?_, rfl, rfl⟩
    · dsimp only
      rw [findById_updateById_self, hst]
      rfl
    · intro j hj
      dsimp only
      exact findById_updateById_ne _ _ _ _ hj
  · intro bid b st hb hp hst
    refine ⟨_, cancelBooking_pending db bid b st hb hp hst, ?_⟩
    dsimp only
    rw [findById_updateById_self, findById_updateById_self, hst]
    rfl

/-- Witness state for C10: booking `b2` is CONFIRMED and owns seat `A1`
(which sits in `bookedSeats`), while the stale booking `b1` of another user
is still PENDING on the same seat label. -/
def c10DB : DB :=
  ⟨[("s", ⟨100, ["A1"], []⟩)],
   [("b1", ⟨"u1", "s", ["A1"], 100, .pending, 0, "CODEB1"⟩),
    ("b2", ⟨"u2", "s", ["A1"], 100, .confirmed, 660000, "CODEB2"⟩)],
   []⟩

/-- Cancelling the PENDING booking `b1` of `c10DB` removes `A1` from
`bookedSeats` although the CONFIRMED booking `b2` owns it. -/
theorem c10_releaseSeats_label_keyed_witness :
    ∃ db', cancelBooking c10DB "b1" = (.ok "b1", db') ∧
      findById db'.showtimes "s" = some ⟨100, [], []⟩ := by
  obtain ⟨db', h1, h2⟩ :=
    (c10_releaseSeats_label_keyed c10DB "s" ["A1"]).2 "b1"
      ⟨"u1", "s", ["A1"], 100, .pending, 0, "CODEB1"⟩ ⟨100, ["A1"], []⟩ rfl rfl rfl
  refine ⟨db', h1, ?_⟩
  rw [h2]
  rfl

/-- C7: Confirm and Cancel are idempotent.  `confirmBooking` on a CONFIRMED
booking returns it with the state unchanged, and a successful
`confirmBooking` immediately followed by another one changes nothing more;
symmetrically for `cancelBooking` on a CANCELLED booking. -/
theorem c7_confirm_cancel_idempotent (db : DB) (bid : String) :
    (∀ b, findById db.bookings bid = some b → b.status = .confirmed →
      confirmBooking db bid = (.ok bid, db)) ∧
    (∀ r db', confirmBooking db bid = (.ok r, db') →
      confirmBooking db' bid = (.ok r, db')) ∧
    (∀ b, findById db.bookings bid = some b → b.status = .cancelled →
      cancelBooking db bid = (.ok bid, db)) ∧
    (∀ r db', cancelBooking db bid = (.ok r, db') →
      cancelBooking db' bid = (.ok r, db')) := by
  refine ⟨fun b hb hc => confirmBooking_confirmed db bid b hb hc, ?_,
    fun b hb hc => cancelBooking_cancelled db bid b hb hc, ?_⟩
  · intro r db' h
    obtain ⟨heq, b', hb', hc'⟩ := confirmBooking_ok_status db bid r db' h
    rw [heq]
    exact confirmBooking_confirmed db' bid b' hb' hc'
  · intro r db' h
    obtain ⟨heq, b', hb', hc'⟩ := cancelBooking_ok_status db bid r db' h
    rw [heq]
    exact cancelBooking_cancelled db' bid b' hb' hc'

/-- Witness state for C7: one CONFIRMED and one CANCELLED booking. -/
def c7DB : DB :=
  ⟨[("s", ⟨100, ["A1"], []⟩)],
   [("bc", ⟨"u1", "s", ["A1"], 100, .confirmed, 0, "CODECF"⟩),
    ("bx", ⟨"u2", "s", ["B1"], 100, .cancelled, 0, "CODECX"⟩)],
   []⟩

/-- Concrete idempotence: re-confirming `bc` and re-cancelling `bx` in `c7DB`
return the booking and leave the state untouched. -/
theorem c7_confirm_cancel_idempotent_witness :
    confirmBooking c7DB "bc" = (.ok "bc", c7DB) ∧
    cancelBooking c7DB "bx" = (.ok "bx", c7DB) ∧
    confirmBooking (confirmBooking c7DB "bc").2 "bc" = (.ok "bc", (confirmBooking c7DB "bc").2) := by
  have h1 := (c7_confirm_cancel_idempotent c7DB "bc").1
    ⟨"u1", "s", ["A1"], 100, .confirmed, 0, "CODECF"⟩ rfl rfl
  have h2 := (c7_confirm_cancel_idempotent c7DB "bx").2.2.1
    ⟨"u2", "s", ["B1"], 100, .cancelled, 0, "CODECX"⟩ rfl rfl
  have h3 := (c7_confirm_cancel_idempotent c7DB "bc").2.1 "bc" (confirmBooking c7DB "bc").2
    (by rw [h1])
  exact ⟨h1, h2, h3⟩

theorem lockSeatsInDB_preserve (db : DB) (sid : String) (seats : List String)
    (u : String) (ttl now : Nat) :
    (lockSeatsInDB db sid seats u ttl now).2.bookings = db.bookings ∧
    (lockSeatsInDB db sid seats u ttl now).2.payments = db.payments ∧
    ∀ st, findById db.showtimes sid = some st →
      ∃ st', findById (lockSeatsInDB db sid seats u ttl now).2.showtimes sid = some st' ∧
        st'.price = st.price ∧ st'.bookedSeats = st.bookedSeats := by
  unfold lockSeatsInDB
  dsimp only
  have h1 : findById (updateById db.showtimes sid (pullExpiredLocks · now)) sid =
      (findById db.showtimes sid).map (pullExpiredLocks · now) :=
    findById_updateById_self db.showtimes sid (pullExpiredLocks · now)
  cases hf : findById (updateById db.showtimes sid (pullExpiredLocks · now)) sid with
  | none =>
    refine ⟨rfl, rfl, fun st hst => ?_⟩
    rw [hf, hst] at h1
    simp at h1
  | some stp =>
    dsimp only
    split
    · refine ⟨rfl, rfl, fun st hst => ?_⟩
      dsimp only
      rw [findById_updateById_self, hf]
      rw [hst] at h1
      simp only [Option.map_some'] at h1
      have hstp : stp = pullExpiredLocks st now := by
        injection hf.symm.trans h1
      exact ⟨_, rfl, by rw [hstp]; rfl, by rw [hstp]; rfl⟩
    · refine ⟨rfl, rfl, fun st hst => ?_⟩
      rw [hst] at h1
      simp only [Option.map_some'] at h1
      have hstp : stp = pullExpiredLocks st now := by
        injection hf.symm.trans h1
      exact ⟨stp, hf, by rw [hstp]; rfl, by rw [hstp]; rfl⟩

theorem lockSeatsInDB_true_locks (db : DB) (sid : String) (seats : List String)
    (u : String) (ttl now : Nat) (ldb : DB)
    (h : lockSeatsInDB db sid seats u ttl now = (true, ldb)) :
    ∀ s ∈ seats, hasLock ldb sid s u = true := by
  unfold lockSeatsInDB at h
  dsimp only at h
  cases hf : findById (updateById db.showtimes sid (pullExpiredLocks · now)) sid with
  | none => rw [hf] at h; simp at h
  | some stp =>
    rw [hf] at h
    dsimp only at h
    split at h
    · simp only [Prod.mk.injEq] at h
      obtain ⟨-, rfl⟩ := h
      intro s hs
      unfold hasLock
      dsimp only
      rw [findById_updateById_self, hf]
      simp only [Option.map_some']
      simp only [List.any_append, Bool.or_eq_true]
      right
      rw [List.any_eq_true]
      refine ⟨{ seat := s, userId := u, expiresAt := now + ttl * 60 * 1000 }, ?_, by simp⟩
      exact List.mem_map_of_mem _ hs
    · simp at h

theorem create_ok_elim (db : DB) (u sid : String) (seats : List String) (now : Nat)
    (nid code : String) (bid : String) (db' : DB)
    (h : create db u sid seats now nid code = (.ok bid, db')) :
    bid = nid ∧ ∃ ldb showtime,
      lockSeatsInDB db sid seats u 10 now = (true, ldb) ∧
      findById ldb.showtimes sid = some showtime ∧
      db' = { ldb with bookings := ldb.bookings ++
        [(nid, { userId := u, showtimeId := sid, seats := seats,
                 totalPrice := seats.length * showtime.price, status := .pending,
                 createdAt := now, bookingCode := code })] } := by
  unfold create at h
  dsimp only at h
  cases hr : lockSeatsInDB db sid seats u 10 now with
  | mk flag ldb =>
    rw [hr] at h
    dsimp only at h
    cases flag with
    | false => simp at h
    | true =>
      simp only [Bool.not_true, Bool.false_eq_true, if_false] at h
      cases hf : findById ldb.showtimes sid with
      | none => rw [hf] at h; simp at h
      | some showtime =>
        rw [hf] at h
        dsimp only at h
        split at h
        · simp at h
        · simp only [Prod.mk.injEq, Except.ok.injEq] at h
          obtain ⟨rfl, rfl⟩ := h
          exact ⟨rfl, ldb, showtime, rfl, hf, rfl⟩

theorem create_error_unlocked (db : DB) (u sid : String) (seats : List String)
    (now : Nat) (nid code : String) (e : Err) (db' : DB)
    (h : create db u sid seats now nid code = (.error e, db')) :
    ∃ mid : DB, db' = unlockSeatsInDB mid sid seats u ∧ mid.bookings = db.bookings := by
  unfold create at h
  dsimp only at h
  cases hr : lockSeatsInDB db sid seats u 10 now with
  | mk flag ldb =>
    have hlb : ldb.bookings = db.bookings := by
      have := (lockSeatsInDB_preserve db sid seats u 10 now).1
      rw [hr] at this
      exact this
    rw [hr] at h
    dsimp only at h
    cases flag with
    | false =>
      simp only [Bool.not_false, if_true, Prod.mk.injEq] at h
      exact ⟨ldb, h.2.symm, hlb⟩
    | true =>
      simp only [Bool.not_true, Bool.false_eq_true, if_false] at h
      cases hf : findById ldb.showtimes sid with
      | none =>
        rw [hf] at h
        simp only [Prod.mk.injEq] at h
        exact ⟨ldb, h.2.symm, hlb⟩
      | some showtime =>
        rw [hf] at h
        dsimp only at h
        split at h
        · simp only [Prod.mk.injEq] at h
          exact ⟨ldb, h.2.symm, hlb⟩
        · simp at h

theorem noCallerHolds_unlock (db : DB) (sid : String) (seats : List String)
    (u : String) : noCallerHolds (unlockSeatsInDB db sid seats u) sid seats u = true := by
  unfold noCallerHolds hasLock unlockSeatsInDB
  dsimp only
  rw [List.all_eq_true]
  intro s hs
  rw [findById_updateById_self]
  cases hst : findById db.showtimes sid with
  | none => simp
  | some st =>
    simp only [Option.map_some']
    simp only [Bool.not_eq_true']
    rw [List.any_eq_false]
    intro l hl
    rw [List.mem_filter] at hl
    obtain ⟨-, hl2⟩ := hl
    rw [Bool.not_eq_true'] at hl2
    intro hcon
    rw [Bool.and_eq_true, beq_iff_eq, beq_iff_eq] at hcon
    obtain ⟨hseq, huq⟩ := hcon
    rw [hseq, huq] at hl2
    simp only [Bool.and_eq_false_iff] at hl2
    rcases hl2 with hseat | huser
    · have hmem : seats.contains s = true := List.elem_eq_true_of_mem hs
      rw [hseat] at hmem
      cases hmem
    · simp at huser

/-- C2: `create` is all-or-nothing.  Every failed `create` leaves the
bookings collection exactly as it was and leaves no temp lock on any of the
requested seats held by the caller; a successful `create` holds every
requested seat for the caller. -/
theorem c2_create_atomicity (db : DB) (u sid : String) (seats : List String)
    (now : Nat) (nid code : String) :
    (∀ e db', create db u sid seats now nid code = (.error e, db') →
      db'.bookings = db.bookings ∧ noCallerHolds db' sid seats u = true) ∧
    (∀ bid db', create db u sid seats now nid code = (.ok bid, db') →
      ∀ s ∈ seats, hasLock db' sid s u = true) := by
  constructor
  · intro e db' h
    obtain ⟨mid, hdb', hmb⟩ := create_error_unlocked db u sid seats now nid code e db' h
    subst hdb'
    exact ⟨hmb, noCallerHolds_unlock mid sid seats u⟩
  · intro bid db' h
    obtain ⟨-, ldb, showtime, hlock, -, hdb'⟩ :=
      create_ok_elim db u sid seats now nid code bid db' h
    subst hdb'
    intro s hs
    exact lockSeatsInDB_true_locks db sid seats u 10 now ldb hlock s hs

/-- Witness state for C2: seat `A1` is already sold. -/
def c2DB : DB := ⟨[("s", ⟨100, ["A1"], []⟩)], [], []⟩

/-- Concrete instance of C2: requesting the sold seat `A1` fails and leaves
no booking row and no hold; requesting the free seat `B1` succeeds and holds
it. -/
theorem c2_create_atomicity_witness :
    ((create c2DB "u" "s" ["A1"] 0 "n1" "CD").2.bookings = c2DB.bookings ∧
      noCallerHolds (create c2DB "u" "s" ["A1"] 0 "n1" "CD").2 "s" ["A1"] "u" = true) ∧
    hasLock (create c2DB "u" "s" ["B1"] 0 "n2" "CE").2 "s" "B1" "u" = true := by
  refine ⟨(c2_create_atomicity c2DB "u" "s" ["A1"] 0 "n1" "CD").1
      (.conflict "One or more seats are currently being reserved by another user. Please try again.")
      (create c2DB "u" "s" ["A1"] 0 "n1" "CD").2 rfl,
    (c2_create_atomicity c2DB "u" "s" ["B1"] 0 "n2" "CE").2 "n2"
      (create c2DB "u" "s" ["B1"] 0 "n2" "CE").2 rfl "B1" (by simp)⟩

/-- C4: a callback whose `vnp_SecureHash` differs from the HMAC of the
canonical parameter string (in particular, a valid payload with only the
signature field altered) is answered by `handleVNPayReturn` and
`handleVNPayIPN` with a failure carrying an invalid-signature message, and
the state `db` is returned completely unchanged. -/
theorem c4_invalid_signature_rejected (hmac : String → String → String)
    (secret : String) (db : DB) (p : VNPayParams) (now : Nat)
    (h : p.vnp_SecureHash ≠ hmac secret (signData p)) :
    handleVNPayReturn hmac secret db p now =
      (.ok { success := false, message := "Invalid payment signature" }, db) ∧
    handleVNPayIPN hmac secret db p now =
      (.ok { success := false, message := "Invalid signature" }, db) := by
  have hv : verifyReturnUrl hmac secret p =
      { isValid := false, message := "Invalid signature", hasData := false,
        dataTransactionNo := none } := by
    unfold verifyReturnUrl
    simp [beq_false_of_ne h]
  constructor
  · unfold handleVNPayReturn
    rw [hv]
    rfl
  · unfold handleVNPayIPN
    rw [hv]
    rfl

/-- Witness state for C4: a PENDING booking with its PENDING payment and a
held seat. -/
def c4DB : DB :=
  ⟨[("s", ⟨100, [], [⟨"A1", "u", 600000⟩]⟩)],
   [("b", ⟨"u", "s", ["A1"], 100, .pending, 0, "CODEC4"⟩)],
   [("p1", ⟨"b", 100, "vnpay", "T1", .pending, none⟩)]⟩

/-- A payload signed with the wrong hash (the correct HMAC of this payload
under `fun _ _ => "X"` is `"X"`, not `"forged"`). -/
def c4Payload : VNPayParams :=
  { vnp_TxnRef := "b-1700000000000", vnp_ResponseCode := "00",
    vnp_TransactionStatus := some "00", vnp_TransactionNo := some "VN1",
    vnp_Amount := "10000", vnp_SecureHash := "forged", otherParams := "vnp_TmnCode=T" }

/-- Concrete instance of C4: the forged payload is rejected by both handlers
and `c4DB` is untouched. -/
theorem c4_invalid_signature_rejected_witness :
    handleVNPayReturn (fun _ _ => "X") "K" c4DB c4Payload 7 =
      (.ok { success := false, message := "Invalid payment signature" }, c4DB) ∧
    handleVNPayIPN (fun _ _ => "X") "K" c4DB c4Payload 7 =
      (.ok { success := false, message := "Invalid signature" }, c4DB) :=
  c4_invalid_signature_rejected (fun _ _ => "X") "K" c4DB c4Payload 7 (by decide)

/-- C6: a successful `create` prices the booking at |seats| × the showtime's
unit price as read at creation time, and a later price change on any
showtime (`updateShowtimePrice`) does not alter any stored booking. -/
theorem c6_price_freeze (db : DB) (u sid : String) (seats : List String)
    (now : Nat) (nid code bid : String) (db' : DB) (st : Showtime)
    (hc : create db u sid seats now nid code = (.ok bid, db'))
    (hst : findById db.showtimes sid = some st)
    (hfresh : findById db.bookings nid = none) :
    (∃ b, findById db'.bookings bid = some b ∧
      b.totalPrice = seats.length * st.price ∧ b.seats = seats) ∧
    (∀ np sid2, findById (updateShowtimePrice db' sid2 np).bookings bid =
      findById db'.bookings bid) := by
  obtain ⟨hbid, ldb, showtime, hlock, hf, hdb'⟩ :=
    create_ok_elim db u sid seats now nid code bid db' hc
  subst hbid
  subst hdb'
  have hpres := lockSeatsInDB_preserve db sid seats u 10 now
  rw [hlock] at hpres
  obtain ⟨hlb, -, hsh⟩ := hpres
  obtain ⟨st', hst', hprice, -⟩ := hsh st hst
  have hse : showtime = st' := by
    have := hf.symm.trans hst'
    injection this
  constructor
  · refine ⟨⟨u, sid, seats, seats.length * showtime.price, .pending, now, code⟩, ?_, ?_, rfl⟩
    · dsimp only
      exact findById_append_right ldb.bookings bid _ (by rw [hlb]; exact hfresh)
    · dsimp only
      rw [hse, hprice]
  · intro np sid2
    rfl

/-- Witness state for C6: an empty showtime priced 100. -/
def c6DB : DB := ⟨[("s", ⟨100, [], []⟩)], [], []⟩

/-- Concrete instance of C6: booking two seats at price 100 freezes
totalPrice = 200, and re-pricing the showtime to 150 leaves the stored
booking untouched. -/
theorem c6_price_freeze_witness :
    (∃ b, findById (create c6DB "u" "s" ["A1", "B1"] 0 "n1" "CF").2.bookings "n1" = some b ∧
      b.totalPrice = 2 * 100 ∧ b.seats = ["A1", "B1"]) ∧
    findById (updateShowtimePrice (create c6DB "u" "s" ["A1", "B1"] 0 "n1" "CF").2 "s" 150).bookings "n1" =
      findById (create c6DB "u" "s" ["A1", "B1"] 0 "n1" "CF").2.bookings "n1" := by
  have h := c6_price_freeze c6DB "u" "s" ["A1", "B1"] 0 "n1" "CF" "n1"
    (create c6DB "u" "s" ["A1", "B1"] 0 "n1" "CF").2 ⟨100, [], []⟩ rfl rfl rfl
  exact ⟨h.1, h.2 150 "s"⟩

/-- Seed state for the double-sell trace: one showtime `"s"` priced 100 with
nothing sold and nothing held. -/
def seedDB : DB := ⟨[("s", ⟨100, [], []⟩)], [], []⟩

/-- A public-API trace: `u1` creates booking `b1` for seat `A1` at t = 0 and
never pays; at t = 11 min the hold has expired, so `u2` creates `b2` for the
same seat and confirms (pays); `u1` then cancels the stale PENDING `b1`,
which strips `A1` out of `bookedSeats` although `b2` owns it; `u3` then
creates `b3` for `A1` at t = 12 min and confirms. -/
def doubleSellTrace : DB :=
  let r1 := create seedDB "u1" "s" ["A1"] 0 "b1" "CODE1"
  let r2 := create r1.2 "u2" "s" ["A1"] 660000 "b2" "CODE2"
  let r3 := confirmBooking r2.2 "b2"
  let r4 := cancelBooking r3.2 "b1"
  let r5 := create r4.2 "u3" "s" ["A1"] 720000 "b3" "CODE3"
  (confirmBooking r5.2 "b3").2

/-- C1 fails on the code: every step of `doubleSellTrace` is a successful
public operation, yet at its end seat `A1` belongs to the two CONFIRMED
bookings `b2` and `b3` at once — the no-double-sell invariant (at most one
CONFIRMED booking per seat) is violated on a reachable state. -/
theorem c1_double_sell_trace :
    (create seedDB "u1" "s" ["A1"] 0 "b1" "CODE1").1 = .ok "b1" ∧
    (create (create seedDB "u1" "s" ["A1"] 0 "b1" "CODE1").2
      "u2" "s" ["A1"] 660000 "b2" "CODE2").1 = .ok "b2" ∧
    (findById doubleSellTrace.bookings "b2") =
      some ⟨"u2", "s", ["A1"], 100, .confirmed, 660000, "CODE2"⟩ ∧
    (findById doubleSellTrace.bookings "b3") =
      some ⟨"u3", "s", ["A1"], 100, .confirmed, 720000, "CODE3"⟩ ∧
    (findById doubleSellTrace.showtimes "s").map Showtime.bookedSeats = some ["A1"] :=
  ⟨rfl, rfl, rfl, rfl, rfl⟩

/-- The HMAC stand-in used by the concrete payment scenarios. -/
def hmacC : String → String → String := fun secret data => secret ++ "#" ++ data

/-- A correctly signed VNPay failure payload (response code 24, "customer
cancelled") for booking `"b"`. -/
def failPayload : VNPayParams :=
  let base : VNPayParams :=
    { vnp_TxnRef := "b-1700000000000", vnp_ResponseCode := "24",
      vnp_TransactionStatus := some "02", vnp_TransactionNo := none,
      vnp_Amount := "10000", vnp_SecureHash := "", otherParams := "vnp_TmnCode=T" }
  { base with vnp_SecureHash := hmacC "K" (signData base) }

/-- State with TWO pending payment rows for the same booking `"b"` — a state
`createVNPayPayment` reaches when called twice for one booking, since an
existing PENDING payment is not superseded. -/
def twoPendingDB : DB :=
  ⟨[("s", ⟨100, [], [⟨"A1", "u", 600000⟩]⟩)],
   [("b", ⟨"u", "s", ["A1"], 100, .pending, 0, "CODE"⟩)],
   [("p1", ⟨"b", 100, "vnpay", "T1", .pending, none⟩),
    ("p2", ⟨"b", 100, "vnpay", "T2", .pending, none⟩)]⟩

/-- The two-pending state is reachable: starting from one pending payment,
`createVNPayPayment` succeeds and appends the second PENDING row. -/
theorem twoPendingDB_reachable :
    createVNPayPayment
      ⟨[("s", ⟨100, [], [⟨"A1", "u", 600000⟩]⟩)],
       [("b", ⟨"u", "s", ["A1"], 100, .pending, 0, "CODE"⟩)],
       [("p1", ⟨"b", 100, "vnpay", "T1", .pending, none⟩)]⟩
      "b" 100 "p2" "T2" = (.ok "p2", twoPendingDB) := rfl

/-- C3 fails on the code as stated: delivering the validly-signed failure
notification `failPayload` twice to `twoPendingDB` is NOT the same as
delivering it once — the first delivery marks `p1` FAILED, the second marks
`p2` FAILED as well, so the payment state after k = 2 differs from k = 1. -/
theorem c3_ipn_not_idempotent_counterexample :
    failPayload.vnp_SecureHash = hmacC "K" (signData failPayload) ∧
    (findById (iterateIPN hmacC "K" failPayload 999 1 twoPendingDB).payments "p2").map Payment.status
      = some .pending ∧
    (findById (iterateIPN hmacC "K" failPayload 999 2 twoPendingDB).payments "p2").map Payment.status
      = some .failed ∧
    iterateIPN hmacC "K" failPayload 999 2 twoPendingDB ≠
      iterateIPN hmacC "K" failPayload 999 1 twoPendingDB :=
  ⟨rfl, rfl, rfl, by decide⟩

/-- State with a PENDING booking holding its seat and one PENDING payment. -/
def pendingPayDB : DB :=
  ⟨[("s", ⟨100, [], [⟨"A1", "u", 600000⟩]⟩)],
   [("b", ⟨"u", "s", ["A1"], 100, .pending, 0, "CODE"⟩)],
   [("p1", ⟨"b", 100, "vnpay", "T1", .pending, none⟩)]⟩

/-- C5 fails on the code: a validly-signed failure notification marks the
payment FAILED but never calls `cancelBooking` — the booking stays PENDING
and its hold stays in `tempLockedSeats`, contradicting "the booking ends
CANCELLED and its holds are released". -/
theorem c5_failure_does_not_cancel_counterexample :
    (handleVNPayIPN hmacC "K" pendingPayDB failPayload 999).1 =
      .ok { success := false,
            message := "Giao dịch không thành công do: Khách hàng hủy giao dịch" } ∧
    (findById (handleVNPayIPN hmacC "K" pendingPayDB failPayload 999).2.payments "p1").map
      Payment.status = some .failed ∧
    (findById (handleVNPayIPN hmacC "K" pendingPayDB failPayload 999).2.bookings "b").map
      Booking.status = some .pending ∧
    (findById (handleVNPayIPN hmacC "K" pendingPayDB failPayload 999).2.showtimes "s").map
      Showtime.tempLockedSeats = some [⟨"A1", "u", 600000⟩] :=
  ⟨rfl, rfl, rfl, rfl⟩

/-- State of a normal refund request: payment `q` COMPLETED, its booking `b`
CONFIRMED, seat `A1` sold. -/
def refundDB : DB :=
  ⟨[("s", ⟨100, ["A1"], []⟩)],
   [("b", ⟨"u", "s", ["A1"], 100, .confirmed, 0, "CODE"⟩)],
   [("q", ⟨"b", 100, "vnpay", "T1", .completed, some 5⟩)]⟩

/-- C8 fails on the code: refunding the COMPLETED payment of a CONFIRMED
booking throws (`cancelBooking` rejects CONFIRMED bookings), the booking
stays CONFIRMED, its seat stays sold — and the payment has nevertheless
already been saved as REFUNDED. -/
theorem c8_refund_confirmed_counterexample :
    (refund refundDB "q").1 =
      .error (.badRequest "Cannot cancel confirmed booking via payment flow") ∧
    (findById (refund refundDB "q").2.payments "q").map Payment.status = some .refunded ∧
    (findById (refund refundDB "q").2.bookings "b").map Booking.status = some .confirmed ∧
    (findById (refund refundDB "q").2.showtimes "s").map Showtime.bookedSeats = some ["A1"] :=
  ⟨rfl, rfl, rfl, rfl⟩

/-- State just before a sweep: `b1` (user `u1`, seat `A1`, created t = 0) is
PENDING and expired; its hold has already been replaced by user `u2`'s live
hold on the same seat label (taken at t = 11 min for booking `b2`). -/
def sweepDB : DB :=
  ⟨[("s", ⟨100, [], [⟨"A1", "u2", 1260000⟩]⟩)],
   [("b1", ⟨"u1", "s", ["A1"], 100, .pending, 0, "C1X"⟩),
    ("b2", ⟨"u2", "s", ["A1"], 100, .pending, 660000, "C2X"⟩)],
   []⟩

/-- C9 fails on the code as stated: after the sweep at t = 16 min the expired
booking `b1` is CANCELLED, but its seat `A1` is still present in the
showtime's `tempLockedSeats` (user `u2`'s live hold), contradicting "its
seats are absent … from its tempLockedSeats". -/
theorem c9_sweep_leaves_other_hold_counterexample :
    (findById (autoCancelExpiredBookings sweepDB 960000).bookings "b1").map Booking.status =
      some .cancelled ∧
    (findById (autoCancelExpiredBookings sweepDB 960000).showtimes "s").map
      Showtime.tempLockedSeats = some [⟨"A1", "u2", 1260000⟩] :=
  ⟨rfl, rfl⟩

theorem cancelBooking_confirmed (db : DB) (bid : String) (b : Booking)
    (hb : findById db.bookings bid = some b) (hc : b.status = .confirmed) :
    cancelBooking db bid =
      (.error (.badRequest "Cannot cancel confirmed booking via payment flow"), db) := by
  unfold cancelBooking
  rw [hb]
  simp [hc]

/-- C8 amended: `refund` rejects non-COMPLETED payments untouched; but for a
COMPLETED payment whose booking is CONFIRMED (the normal refund situation)
it saves the payment as REFUNDED and then fails, because `cancelBooking`
rejects CONFIRMED bookings — the booking stays CONFIRMED and the seat state
is untouched, so no administrative cancel-from-CONFIRMED path exists. -/
theorem c8_refund_amended (db : DB) (pid : String) :
    (∀ payment, findById db.payments pid = some payment → payment.status ≠ .completed →
      refund db pid = (.error (.badRequest "Only completed payments can be refunded"), db)) ∧
    (∀ payment b, findById db.payments pid = some payment → payment.status = .completed →
      findById db.bookings payment.bookingId = some b → b.status = .confirmed →
      ∃ db', refund db pid =
          (.error (.badRequest "Cannot cancel confirmed booking via payment flow"), db') ∧
        findById db'.payments pid = some { payment with status := .refunded } ∧
        db'.bookings = db.bookings ∧ db'.showtimes = db.showtimes) := by
  constructor
  · intro payment hp hnc
    unfold refund
    rw [hp]
    simp [beq_false_of_ne hnc]
  · intro payment b hp hc hb hcf
    unfold refund
    rw [hp]
    simp only [hc]
    rw [show (PaymentStatus.completed == PaymentStatus.completed) = true from rfl]
    simp only [Bool.not_true, Bool.false_eq_true, if_false]
    have hb1 : findById
        ({ db with payments := updateById db.payments pid (fun p =>
            { p with status := .refunded }) } : DB).bookings payment.bookingId = some b := hb
    rw [cancelBooking_confirmed _ payment.bookingId b hb1 hcf]
    refine ⟨_, rfl, ?_, rfl, rfl⟩
    dsimp only
    rw [findById_updateById_self, hp]
    rfl

/-- Concrete instance of C8 (amended): refunding `q` in `refundDB` errors,
saves `q` as REFUNDED, and leaves booking and seats untouched. -/
theorem c8_refund_amended_witness :
    ∃ db', refund refundDB "q" =
        (.error (.badRequest "Cannot cancel confirmed booking via payment flow"), db') ∧
      findById db'.payments "q" =
        some ⟨"b", 100, "vnpay", "T1", .refunded, some 5⟩ ∧
      db'.bookings = refundDB.bookings ∧ db'.showtimes = refundDB.showtimes :=
  (c8_refund_amended refundDB "q").2 ⟨"b", 100, "vnpay", "T1", .completed, some 5⟩
    ⟨"u", "s", ["A1"], 100, .confirmed, 0, "CODE"⟩ rfl rfl rfl rfl

theorem verifyReturnUrl_valid (hmac : String → String → String) (secret : String)
    (p : VNPayParams) (hsig : p.vnp_SecureHash = hmac secret (signData p)) :
    (verifyReturnUrl hmac secret p).isValid = true ∧
    (verifyReturnUrl hmac secret p).hasData = true := by
  unfold verifyReturnUrl
  rw [hsig]
  simp only [beq_self_eq_true, Bool.not_true, Bool.false_eq_true, if_false]
  split <;> exact ⟨rfl, rfl⟩

/-- C5 amended: a validly-signed failure notification (response code other
than "00") never calls `cancelBooking` and never touches seats: the bookings
and showtimes collections are returned unchanged, and the payments are
either unchanged (no PENDING payment, or an already-COMPLETED payment
dedupes the delivery) or have exactly the first PENDING payment of the
booking marked FAILED. -/
theorem c5_failure_marks_payment_only (hmac : String → String → String)
    (secret : String) (db : DB) (p : VNPayParams) (now : Nat)
    (hsig : p.vnp_SecureHash = hmac secret (signData p))
    (hcode : p.vnp_ResponseCode ≠ "00") :
    ∃ r db', handleVNPayIPN hmac secret db p now = (.ok r, db') ∧
      db'.bookings = db.bookings ∧ db'.showtimes = db.showtimes ∧
      (db'.payments = db.payments ∨
        ∃ pid payment,
          db.payments.find? (fun q => q.2.bookingId == extractBookingId p.vnp_TxnRef &&
            q.2.status == .pending) = some (pid, payment) ∧
          db'.payments = updateById db.payments pid (fun q => { q with status := .failed })) := by
  obtain ⟨hval, -⟩ := verifyReturnUrl_valid hmac secret p hsig
  unfold handleVNPayIPN
  dsimp only
  rw [hval]
  simp only [Bool.not_true, Bool.false_eq_true, if_false]
  cases hfc : db.payments.find? (fun q =>
      q.2.bookingId == extractBookingId p.vnp_TxnRef && q.2.status == .completed) with
  | some x =>
    exact ⟨_, db, rfl, rfl, rfl, .inl rfl⟩
  | none =>
    rw [beq_false_of_ne hcode, Bool.and_false]
    simp only [Bool.false_eq_true, if_false]
    refine ⟨_, _, rfl, ?_, ?_, ?_⟩
    · unfold failVNPayPayment
      cases hfp : db.payments.find? (fun q =>
          q.2.bookingId == extractBookingId p.vnp_TxnRef && q.2.status == .pending) <;> rfl
    · unfold failVNPayPayment
      cases hfp : db.payments.find? (fun q =>
          q.2.bookingId == extractBookingId p.vnp_TxnRef && q.2.status == .pending) <;> rfl
    · unfold failVNPayPayment
      cases hfp : db.payments.find? (fun q =>
          q.2.bookingId == extractBookingId p.vnp_TxnRef && q.2.status == .pending) with
      | none => exact .inl rfl
      | some y =>
        obtain ⟨pid, payment⟩ := y
        exact .inr ⟨pid, payment, rfl, rfl⟩

/-- Concrete instance of C5 (amended) at `pendingPayDB` with the signed
failure payload `failPayload`. -/
theorem c5_failure_marks_payment_only_witness :
    ∃ r db', handleVNPayIPN hmacC "K" pendingPayDB failPayload 999 = (.ok r, db') ∧
      db'.bookings = pendingPayDB.bookings ∧ db'.showtimes = pendingPayDB.showtimes ∧
      (db'.payments = pendingPayDB.payments ∨
        ∃ pid payment,
          pendingPayDB.payments.find? (fun q =>
            q.2.bookingId == extractBookingId failPayload.vnp_TxnRef &&
            q.2.status == .pending) = some (pid, payment) ∧
          db'.payments = updateById pendingPayDB.payments pid
            (fun q => { q with status := .failed })) :=
  c5_failure_marks_payment_only hmacC "K" pendingPayDB failPayload 999 (by decide) (by decide)

theorem findById_pullExpired (l : List (String × Showtime)) (now : Nat) (i : String) :
    findById (l.map (fun p => (p.1, pullExpiredLocks p.2 now))) i =
      (findById l i).map (fun st => pullExpiredLocks st now) := by
  induction l with
  | nil => rfl
  | cons hd tl ih =>
    obtain ⟨k, v⟩ := hd
    rw [List.map_cons, findById_cons, findById_cons]
    by_cases h : k = i
    · simp [h]
    · simp [beq_false_of_ne h, ih]

theorem autoCancelStep_bookings_ne (db : DB) (e : String × Booking) (bid : String)
    (h : bid ≠ e.1) :
    findById (autoCancelStep db e).bookings bid = findById db.bookings bid := by
  unfold autoCancelStep
  dsimp only
  exact findById_updateById_ne _ _ _ _ h

theorem foldl_autoCancel_bookings_ne (l : List (String × Booking)) (db : DB)
    (bid : String) (h : ∀ e ∈ l, bid ≠ e.1) :
    findById (l.foldl autoCancelStep db).bookings bid = findById db.bookings bid := by
  induction l generalizing db with
  | nil => rfl
  | cons e t ih =>
    rw [List.foldl_cons, ih (autoCancelStep db e) (fun x hx => h x (List.mem_cons_of_mem e hx)),
      autoCancelStep_bookings_ne db e bid (h e (List.mem_cons_self e t))]

theorem autoCancelStep_showtimes_sub (db : DB) (e : String × Booking) (sid : String)
    (st' : Showtime) (h : findById (autoCancelStep db e).showtimes sid = some st') :
    ∃ st, findById db.showtimes sid = some st ∧
      (∀ x ∈ st'.bookedSeats, x ∈ st.bookedSeats) ∧
      (∀ l ∈ st'.tempLockedSeats, l ∈ st.tempLockedSeats) := by
  unfold autoCancelStep at h
  dsimp only at h
  by_cases hsid : sid = e.2.showtimeId
  · rw [hsid] at h ⊢
    rw [findById_updateById_self] at h
    cases hst : findById db.showtimes e.2.showtimeId with
    | none => rw [hst] at h; simp at h
    | some st =>
      rw [hst] at h
      simp only [Option.map_some'] at h
      injection h with h
      subst h
      refine ⟨st, rfl, ?_, ?_⟩
      · intro x hx
        exact (List.mem_filter.mp hx).1
      · intro l hl
        exact (List.mem_filter.mp hl).1
  · rw [findById_updateById_ne _ _ _ _ hsid] at h
    exact ⟨st', h, fun x hx => hx, fun l hl => hl⟩

theorem foldl_autoCancel_showtimes_sub (l : List (String × Booking)) (db : DB)
    (sid : String) (st' : Showtime)
    (h : findById (l.foldl autoCancelStep db).showtimes sid = some st') :
    ∃ st, findById db.showtimes sid = some st ∧
      (∀ x ∈ st'.bookedSeats, x ∈ st.bookedSeats) ∧
      (∀ lk ∈ st'.tempLockedSeats, lk ∈ st.tempLockedSeats) := by
  induction l generalizing db with
  | nil => exact ⟨st', h, fun _ hx => hx, fun _ hl => hl⟩
  | cons e t ih =>
    rw [List.foldl_cons] at h
    obtain ⟨st1, h1, hb1, ht1⟩ := ih (autoCancelStep db e) h
    obtain ⟨st0, h0, hb0, ht0⟩ := autoCancelStep_showtimes_sub db e sid st1 h1
    exact ⟨st0, h0, fun x hx => hb0 x (hb1 x hx), fun lk hl => ht0 lk (ht1 lk hl)⟩

theorem autoCancelStep_self (db : DB) (bid : String) (b : Booking)
    (hb : findById db.bookings bid = some b) :
    findById (autoCancelStep db (bid, b)).bookings bid = some { b with status := .cancelled } ∧
    ∀ st', findById (autoCancelStep db (bid, b)).showtimes b.showtimeId = some st' →
      (∀ s ∈ b.seats, s ∉ st'.bookedSeats) ∧
      (∀ l ∈ st'.tempLockedSeats, l.userId = b.userId → l.seat ∉ b.seats) := by
  constructor
  · unfold autoCancelStep
    dsimp only
    rw [findById_updateById_self, hb]
    rfl
  · intro st' h
    unfold autoCancelStep at h
    dsimp only at h
    rw [findById_updateById_self] at h
    cases hst : findById db.showtimes b.showtimeId with
    | none => rw [hst] at h; simp at h
    | some st =>
      rw [hst] at h
      simp only [Option.map_some'] at h
      injection h with h
      subst h
      constructor
      · intro s hs hmem2
        obtain ⟨-, hpred⟩ := List.mem_filter.mp hmem2
        rw [Bool.not_eq_true'] at hpred
        have hc : b.seats.contains s = true := List.elem_eq_true_of_mem hs
        exact absurd (hc.symm.trans hpred) (by decide)
      · intro l hl hu hseat
        obtain ⟨-, hpred⟩ := List.mem_filter.mp hl
        rw [Bool.not_eq_true'] at hpred
        rw [Bool.and_eq_false_iff] at hpred
        rcases hpred with h1 | h2
        · simp [hu] at h1
        · have hc : b.seats.contains l.seat = true := List.elem_eq_true_of_mem hseat
          exact absurd (hc.symm.trans h2) (by decide)

theorem foldl_autoCancel_spec (E : List (String × Booking)) (db : DB)
    (bid : String) (b : Booking) (hmemE : (bid, b) ∈ E)
    (hndE : (E.map Prod.fst).Nodup)
    (hb0 : findById db.bookings bid = some b) :
    findById (E.foldl autoCancelStep db).bookings bid = some { b with status := .cancelled } ∧
    ∀ st', findById (E.foldl autoCancelStep db).showtimes b.showtimeId = some st' →
      (∀ s ∈ b.seats, s ∉ st'.bookedSeats) ∧
      (∀ l ∈ st'.tempLockedSeats, l.userId = b.userId → l.seat ∉ b.seats) := by
  obtain ⟨l1, l2, hsplit⟩ := List.append_of_mem hmemE
  subst hsplit
  have hkeys : ((l1.map Prod.fst) ++ bid :: (l2.map Prod.fst)).Nodup := by
    simpa using hndE
  have h1 : ∀ e ∈ l1, bid ≠ e.1 := by
    intro e he hbe
    have hdis := (List.nodup_append.mp hkeys).2.2
    exact hdis (hbe ▸ List.mem_map_of_mem Prod.fst he) (List.mem_cons_self _ _)
  have h2 : ∀ e ∈ l2, bid ≠ e.1 := by
    intro e he hbe
    have hcons : (bid :: (l2.map Prod.fst)).Nodup := (List.nodup_append.mp hkeys).2.1
    exact (List.nodup_cons.mp hcons).1 (hbe ▸ List.mem_map_of_mem Prod.fst he)
  rw [List.foldl_append, List.foldl_cons]
  have hmid : findById (l1.foldl autoCancelStep db).bookings bid = some b := by
    rw [foldl_autoCancel_bookings_ne l1 db bid h1]
    exact hb0
  obtain ⟨hstep1, hstep2⟩ := autoCancelStep_self (l1.foldl autoCancelStep db) bid b hmid
  constructor
  · rw [foldl_autoCancel_bookings_ne l2 _ bid h2]
    exact hstep1
  · intro st' h
    obtain ⟨st2, h2', hbsub, htsub⟩ := foldl_autoCancel_showtimes_sub l2 _ b.showtimeId st' h
    obtain ⟨habs, hlabs⟩ := hstep2 st2 h2'
    exact ⟨fun s hs hmem2 => habs s hs (hbsub s hmem2),
           fun l hl hu hseat => hlabs l (htsub l hl) hu hseat⟩

theorem autoCancelExpiredBookings_eq (db : DB) (now : Nat) :
    autoCancelExpiredBookings db now =
      (db.bookings.filter (fun p => p.2.status == BookingStatus.pending &&
        decide (p.2.createdAt < now - 15 * 60 * 1000))).foldl autoCancelStep db := rfl

/-- C9 amended: after an expiry-sweep tick every PENDING booking older than
15 minutes is CANCELLED with its seats removed from its showtime's
`bookedSeats` and no hold of that booking's user on those seats left — but
holds of OTHER users on the same seat labels survive the sweep (see the
counterexample).  After a hold-GC tick no lock with `expiresAt < now`
remains anywhere. -/
theorem c9_sweep_amended (db : DB) (now : Nat)
    (hnd : (db.bookings.map Prod.fst).Nodup) :
    (∀ bid b, (bid, b) ∈ db.bookings → b.status = .pending →
      b.createdAt < now - 15 * 60 * 1000 →
      findById (autoCancelExpiredBookings db now).bookings bid =
        some { b with status := .cancelled } ∧
      ∀ st', findById (autoCancelExpiredBookings db now).showtimes b.showtimeId = some st' →
        (∀ s ∈ b.seats, s ∉ st'.bookedSeats) ∧
        (∀ l ∈ st'.tempLockedSeats, l.userId = b.userId → l.seat ∉ b.seats)) ∧
    (∀ sid st', findById (cleanupExpiredSeatLocks db now).showtimes sid = some st' →
      ∀ l ∈ st'.tempLockedSeats, ¬ l.expiresAt < now) := by
  constructor
  · intro bid b hmem hp hlt
    have hb0 : findById db.bookings bid = some b :=
      findById_eq_some_of_mem db.bookings bid b hmem hnd
    have hmemE : (bid, b) ∈ db.bookings.filter (fun p =>
        p.2.status == BookingStatus.pending &&
        decide (p.2.createdAt < now - 15 * 60 * 1000)) := by
      refine List.mem_filter.mpr ⟨hmem, ?_⟩
      rw [hp]
      simp [hlt]
    have hndE : ((db.bookings.filter (fun p => p.2.status == BookingStatus.pending &&
        decide (p.2.createdAt < now - 15 * 60 * 1000))).map Prod.fst).Nodup :=
      hnd.sublist ((db.bookings.filter_sublist).map Prod.fst)
    rw [autoCancelExpiredBookings_eq]
    exact foldl_autoCancel_spec _ db bid b hmemE hndE hb0
  · intro sid st' h
    unfold cleanupExpiredSeatLocks at h
    dsimp only at h
    rw [findById_pullExpired] at h
    cases hst : findById db.showtimes sid with
    | none => rw [hst] at h; simp at h
    | some st =>
      rw [hst] at h
      simp only [Option.map_some'] at h
      injection h with h
      subst h
      intro l hl
      obtain ⟨-, hpred⟩ := List.mem_filter.mp hl
      rw [Bool.not_eq_true'] at hpred
      exact of_decide_eq_false hpred

/-- Concrete instance of C9 (amended) on `sweepDB`: the expired booking `b1`
is cancelled by the 16-minute sweep. -/
theorem c9_sweep_amended_witness :
    findById (autoCancelExpiredBookings sweepDB 960000).bookings "b1" =
      some ⟨"u1", "s", ["A1"], 100, .cancelled, 0, "C1X"⟩ := by
  have h := (c9_sweep_amended sweepDB 960000 (by decide)).1 "b1"
    ⟨"u1", "s", ["A1"], 100, .pending, 0, "C1X"⟩ (by decide) rfl (by decide)
  exact h.1

theorem confirmBooking_payments (db : DB) (bid : String) :
    (confirmBooking db bid).2.payments = db.payments := by
  unfold confirmBooking
  cases hb : findById db.bookings bid with
  | none => rfl
  | some b =>
    dsimp only
    by_cases h1 : b.status = .confirmed
    · simp [h1]
    · rw [beq_false_of_ne h1]
      by_cases h2 : b.status = .pending
      · rw [beq_iff_eq.mpr h2]
        simp only [Bool.false_eq_true, if_false, if_true]
        cases hbs : bookSeats db b.showtimeId b.seats with
        | mk res db1 =>
          have hp := bookSeats_payments db b.showtimeId b.seats
          rw [hbs] at hp
          cases res <;> exact hp
      · rw [beq_false_of_ne h2]
        simp

theorem mem_updateById_self {α : Type} (l : List (String × α)) (pid : String)
    (v : α) (f : α → α) (h : (pid, v) ∈ l) : (pid, f v) ∈ updateById l pid f := by
  unfold updateById
  have hm := List.mem_map_of_mem (fun p => if p.1 == pid then (p.1, f p.2) else p) h
  simpa using hm

theorem mem_updateById {α : Type} (l : List (String × α)) (pid : String)
    (f : α → α) (y : String × α) (hy : y ∈ updateById l pid f) :
    ∃ x ∈ l, y = if x.1 == pid then (x.1, f x.2) else x := by
  unfold updateById at hy
  obtain ⟨x, hx, he⟩ := List.mem_map.mp hy
  exact ⟨x, hx, he.symm⟩

theorem eq_singleton_of_length_le_one {α : Type} (l : List α) (a : α)
    (h1 : l.length ≤ 1) (h2 : a ∈ l) : l = [a] := by
  cases l with
  | nil => cases h2
  | cons x t =>
    cases t with
    | nil =>
      obtain rfl : a = x := by simpa using h2
      rfl
    | cons y u => simp at h1

theorem pending_unique (db : DB) (bid pid : String) (payment : Payment)
    (hle : pendingPaymentsFor db bid ≤ 1)
    (hf : db.payments.find? (fun q => q.2.bookingId == bid && q.2.status == .pending) =
      some (pid, payment)) :
    ∀ x ∈ db.payments, (x.2.bookingId == bid && x.2.status == PaymentStatus.pending) = true →
      x = (pid, payment) := by
  intro x hx hpx
  have hpred := List.find?_some hf
  have hmemf : (pid, payment) ∈ db.payments.filter
      (fun q => q.2.bookingId == bid && q.2.status == .pending) :=
    List.mem_filter.mpr ⟨List.mem_of_find?_eq_some hf, hpred⟩
  have hxf : x ∈ db.payments.filter
      (fun q => q.2.bookingId == bid && q.2.status == .pending) :=
    List.mem_filter.mpr ⟨hx, hpx⟩
  have hsing := eq_singleton_of_length_le_one _ _ hle hmemf
  rw [hsing] at hxf
  simpa using hxf

theorem completeVNPay_no_pending (db : DB) (bid : String) (t : Option String) (now : Nat)
    (h : db.payments.find? (fun q => q.2.bookingId == bid && q.2.status == .pending) = none) :
    completeVNPayPayment db bid t now = (.ok (), db) := by
  unfold completeVNPayPayment
  rw [h]

theorem completeVNPay_pending (db : DB) (bid : String) (t : Option String) (now : Nat)
    (pid : String) (payment : Payment)
    (h : db.payments.find? (fun q => q.2.bookingId == bid && q.2.status == .pending) =
      some (pid, payment)) :
    ∃ x, (completeVNPayPayment db bid t now).2.payments =
      updateById db.payments pid (fun q =>
        { q with status := .completed, paidAt := some now, transactionId := x }) := by
  unfold completeVNPayPayment
  rw [h]
  dsimp only
  refine ⟨match t with
    | some tv => if tv == "" then payment.transactionId else tv
    | none => payment.transactionId, ?_⟩
  rw [confirmBooking_payments]

theorem completeVNPay_pending_completed (db : DB) (bid : String) (t : Option String)
    (now : Nat) (pid : String) (payment : Payment)
    (h : db.payments.find? (fun q => q.2.bookingId == bid && q.2.status == .pending) =
      some (pid, payment)) :
    ((completeVNPayPayment db bid t now).2.payments.find? (fun q =>
      q.2.bookingId == bid && q.2.status == PaymentStatus.completed)).isSome = true := by
  obtain ⟨x, hx⟩ := completeVNPay_pending db bid t now pid payment h
  rw [hx, List.find?_isSome]
  refine ⟨(pid, { payment with status := .completed, paidAt := some now, transactionId := x }), ?_, ?_⟩
  · exact mem_updateById_self db.payments pid payment _ (List.mem_of_find?_eq_some h)
  · have hpred0 := List.find?_some h
    have hpred : (payment.bookingId == bid && payment.status == PaymentStatus.pending) = true :=
      hpred0
    have hb : (payment.bookingId == bid) = true := by
      have hh := hpred
      simp only [Bool.and_eq_true] at hh
      exact hh.1
    show (payment.bookingId == bid && PaymentStatus.completed == PaymentStatus.completed) = true
    rw [hb]
    rfl

theorem failVNPay_no_pending (db : DB) (bid : String)
    (h : db.payments.find? (fun q => q.2.bookingId == bid && q.2.status == .pending) = none) :
    failVNPayPayment db bid = db := by
  unfold failVNPayPayment
  rw [h]

theorem failVNPay_pending (db : DB) (bid pid : String) (payment : Payment)
    (h : db.payments.find? (fun q => q.2.bookingId == bid && q.2.status == .pending) =
      some (pid, payment)) :
    failVNPayPayment db bid =
      { db with payments := updateById db.payments pid (fun q =>
          { q with status := .failed }) } := by
  unfold failVNPayPayment
  rw [h]

theorem handleIPN_state (hmac : String → String → String) (secret : String)
    (db : DB) (p : VNPayParams) (now : Nat)
    (hsig : p.vnp_SecureHash = hmac secret (signData p)) :
    (handleVNPayIPN hmac secret db p now).2 =
      if (db.payments.find? (fun q => q.2.bookingId == extractBookingId p.vnp_TxnRef &&
            q.2.status == PaymentStatus.completed)).isSome then db
      else if p.vnp_ResponseCode == "00" then
        (completeVNPayPayment db (extractBookingId p.vnp_TxnRef)
          (verifyReturnUrl hmac secret p).dataTransactionNo now).2
      else failVNPayPayment db (extractBookingId p.vnp_TxnRef) := by
  obtain ⟨hval, hdata⟩ := verifyReturnUrl_valid hmac secret p hsig
  unfold handleVNPayIPN
  dsimp only
  rw [hval, hdata]
  simp only [Bool.not_true, Bool.false_eq_true, if_false, Bool.true_and]
  cases hfc : db.payments.find? (fun q => q.2.bookingId == extractBookingId p.vnp_TxnRef &&
      q.2.status == PaymentStatus.completed) with
  | some x => rfl
  | none =>
    by_cases hc : p.vnp_ResponseCode = "00"
    · rw [beq_iff_eq.mpr hc]
      rfl
    · rw [beq_false_of_ne hc]
      rfl

theorem handleIPN_step_idem (hmac : String → String → String) (secret : String)
    (db : DB) (p : VNPayParams) (now : Nat)
    (hsig : p.vnp_SecureHash = hmac secret (signData p))
    (hk : p.vnp_ResponseCode = "00" ∨
      pendingPaymentsFor db (extractBookingId p.vnp_TxnRef) ≤ 1) :
    (handleVNPayIPN hmac secret (handleVNPayIPN hmac secret db p now).2 p now).2 =
      (handleVNPayIPN hmac secret db p now).2 := by
  have hstate := handleIPN_state hmac secret db p now hsig
  cases hfc : db.payments.find? (fun q => q.2.bookingId == extractBookingId p.vnp_TxnRef &&
      q.2.status == PaymentStatus.completed) with
  | some x =>
    have h1 : (handleVNPayIPN hmac secret db p now).2 = db := by
      rw [hstate, hfc]
      rfl
    rw [h1, hstate, hfc]
    rfl
  | none =>
    by_cases hc : p.vnp_ResponseCode = "00"
    · have h1 : (handleVNPayIPN hmac secret db p now).2 =
          (completeVNPayPayment db (extractBookingId p.vnp_TxnRef)
            (verifyReturnUrl hmac secret p).dataTransactionNo now).2 := by
        rw [hstate, hfc, beq_iff_eq.mpr hc]
        rfl
      cases hfp : db.payments.find? (fun q => q.2.bookingId == extractBookingId p.vnp_TxnRef &&
          q.2.status == PaymentStatus.pending) with
      | none =>
        have h2 := completeVNPay_no_pending db (extractBookingId p.vnp_TxnRef)
          (verifyReturnUrl hmac secret p).dataTransactionNo now hfp
        rw [h1, h2]
        dsimp only
        rw [hstate, hfc, beq_iff_eq.mpr hc, h2]
        rfl
      | some y =>
        obtain ⟨pid, payment⟩ := y
        have hcc := completeVNPay_pending_completed db (extractBookingId p.vnp_TxnRef)
          (verifyReturnUrl hmac secret p).dataTransactionNo now pid payment hfp
        rw [h1,
          handleIPN_state hmac secret ((completeVNPayPayment db (extractBookingId p.vnp_TxnRef)
            (verifyReturnUrl hmac secret p).dataTransactionNo now).2) p now hsig,
          hcc]
        rfl
    · have hle : pendingPaymentsFor db (extractBookingId p.vnp_TxnRef) ≤ 1 :=
        hk.resolve_left hc
      have h1 : (handleVNPayIPN hmac secret db p now).2 =
          failVNPayPayment db (extractBookingId p.vnp_TxnRef) := by
        rw [hstate, hfc, beq_false_of_ne hc]
        rfl
      cases hfp : db.payments.find? (fun q => q.2.bookingId == extractBookingId p.vnp_TxnRef &&
          q.2.status == PaymentStatus.pending) with
      | none =>
        have h2 := failVNPay_no_pending db (extractBookingId p.vnp_TxnRef) hfp
        rw [h1, h2, hstate, hfc, beq_false_of_ne hc, h2]
        rfl
      | some y =>
        obtain ⟨pid, payment⟩ := y
        have h2 := failVNPay_pending db (extractBookingId p.vnp_TxnRef) pid payment hfp
        have hnone_c : ((updateById db.payments pid (fun q =>
            { q with status := PaymentStatus.failed })).find? (fun q =>
            q.2.bookingId == extractBookingId p.vnp_TxnRef &&
            q.2.status == PaymentStatus.completed)) = none := by
          rw [List.find?_eq_none]
          intro y hy
          obtain ⟨x, hx, hxy⟩ := mem_updateById db.payments pid _ y hy
          by_cases hxp : (x.1 == pid) = true
          · rw [if_pos hxp] at hxy
            subst hxy
            intro hcon
            simp only [Bool.and_eq_true] at hcon
            exact absurd hcon.2 (by decide)
          · rw [if_neg hxp] at hxy
            rw [hxy]
            exact List.find?_eq_none.mp hfc x hx
        have hnone_p : ((updateById db.payments pid (fun q =>
            { q with status := PaymentStatus.failed })).find? (fun q =>
            q.2.bookingId == extractBookingId p.vnp_TxnRef &&
            q.2.status == PaymentStatus.pending)) = none := by
          rw [List.find?_eq_none]
          intro y hy
          obtain ⟨x, hx, hxy⟩ := mem_updateById db.payments pid _ y hy
          by_cases hxp : (x.1 == pid) = true
          · rw [if_pos hxp] at hxy
            subst hxy
            intro hcon
            simp only [Bool.and_eq_true] at hcon
            exact absurd hcon.2 (by decide)
          · rw [if_neg hxp] at hxy
            rw [hxy]
            intro hcon
            have hxe := pending_unique db (extractBookingId p.vnp_TxnRef) pid payment hle hfp x hx hcon
            rw [hxe] at hxp
            exact hxp (by simp)
        have h3 : failVNPayPayment ({ db with payments := updateById db.payments pid (fun q =>
            { q with status := PaymentStatus.failed }) } : DB)
            (extractBookingId p.vnp_TxnRef) =
            ({ db with payments := updateById db.payments pid (fun q =>
              { q with status := PaymentStatus.failed }) } : DB) :=
          failVNPay_no_pending _ _ hnone_p
        rw [h1, h2,
          handleIPN_state hmac secret ({ db with payments := updateById db.payments pid (fun q =>
            { q with status := PaymentStatus.failed }) } : DB) p now hsig]
        dsimp only
        rw [hnone_c, beq_false_of_ne hc, h3]
        rfl

/-- C3 amended: delivering the same validly-signed IPN k ≥ 1 times leaves the
same state as delivering it once, provided the payload reports success OR
the referenced booking has at most one PENDING payment row.  (With several
PENDING payment rows — reachable because `createVNPayPayment` does not
supersede an existing PENDING payment — each redelivery of a failure payload
marks one more of them FAILED; see the counterexample.)  In particular a
repeat delivery after COMPLETED returns success without re-confirming, and a
repeat after FAILED returns failure without further state change. -/
theorem c3_ipn_idempotent_amended (hmac : String → String → String) (secret : String)
    (db : DB) (p : VNPayParams) (now : Nat)
    (hsig : p.vnp_SecureHash = hmac secret (signData p))
    (hk : p.vnp_ResponseCode = "00" ∨
      pendingPaymentsFor db (extractBookingId p.vnp_TxnRef) ≤ 1) :
    ∀ k, 1 ≤ k → iterateIPN hmac secret p now k db = iterateIPN hmac secret p now 1 db := by
  have hfix := handleIPN_step_idem hmac secret db p now hsig hk
  have hiter : ∀ m, iterateIPN hmac secret p now m (handleVNPayIPN hmac secret db p now).2 =
      (handleVNPayIPN hmac secret db p now).2 := by
    intro m
    induction m with
    | zero => rfl
    | succ n ih =>
      show iterateIPN hmac secret p now n
        (handleVNPayIPN hmac secret (handleVNPayIPN hmac secret db p now).2 p now).2 = _
      rw [hfix]
      exact ih
  intro k hk1
  cases k with
  | zero => cases hk1
  | succ m =>
    show iterateIPN hmac secret p now m (handleVNPayIPN hmac secret db p now).2 = _
    rw [hiter m]
    rfl

/-- Concrete instance of C3 (amended): with a single PENDING payment
(`pendingPayDB`), three deliveries of the signed failure payload equal one
delivery. -/
theorem c3_ipn_idempotent_amended_witness :
    iterateIPN hmacC "K" failPayload 999 3 pendingPayDB =
      iterateIPN hmacC "K" failPayload 999 1 pendingPayDB :=
  c3_ipn_idempotent_amended hmacC "K" pendingPayDB failPayload 999 (by decide)
    (.inr (by decide)) 3 (by decide)

end Cinema
